import Mathlib

set_option maxRecDepth 100000

/-
Verification of `apply_dashboard_updates.py`, a sequential text-patch script.

The script reads one file into the string variable `content`, applies four
`re.sub(pattern, replacement, content)` calls in order (reassigning `content`
after each), writes `content` back once at the end, and prints a fixed report.

All four patterns in the script are regex-escaped string literals (every regex
metacharacter is backslash-escaped, `\n` stands for a newline, and an unescaped
`{` or `}` is literal in Python's `re`), so each pattern matches exactly one
literal string.  We therefore embed `re.sub` as literal substring replacement
of every non-overlapping occurrence, scanning left to right, which is exactly
`re.sub`'s semantics for such patterns.  Change 3's pattern wraps its literal
in a single capture group and its replacement begins with the backreference
`\1`; since the group always captures the whole literal, the rendered
replacement is the literal followed by the rest of the template, and we embed
it in that rendered form.  Change 2 passes `flags=re.MULTILINE`, which only
alters `^`/`$` and the pattern contains neither, so the flag has no effect.
-/

namespace DashboardUpdates

/-- Fuelled scanner for `re.sub` with a non-empty literal pattern: at each
position, if `pat` is a prefix of the rest of the text, emit `rep` and resume
after the matched span (non-overlapping, leftmost); otherwise keep the current
character and move on.  One unit of fuel is spent per step; each step consumes
at least one character, so fuel equal to the text length never runs out. -/
def subFuel (pat rep : List Char) : Nat → List Char → List Char
  | 0, s => s
  | _ + 1, [] => []
  | f + 1, c :: rest =>
    if pat.isPrefixOf (c :: rest) then
      rep ++ subFuel pat rep f (rest.drop (pat.length - 1))
    else
      c :: subFuel pat rep f rest

/-- Fuelled occurrence counter with the same scanning discipline as
`subFuel`: counts the non-overlapping, leftmost occurrences of `pat`. -/
def countFuel (pat : List Char) : Nat → List Char → Nat
  | 0, _ => 0
  | _ + 1, [] => 0
  | f + 1, c :: rest =>
    if pat.isPrefixOf (c :: rest) then
      countFuel pat f (rest.drop (pat.length - 1)) + 1
    else
      countFuel pat f rest

/-- Embedding of Python's `re.sub(pat, rep, s)` for a literal pattern: every
non-overlapping occurrence of `pat` in `s` is replaced by `rep`.  For the
empty pattern, `re.sub` finds a zero-width match before every character and
at the end (Python 3.7+ semantics), so the replacement is inserted at every
position; the script itself never uses an empty pattern. -/
def reSub (pat rep s : List Char) : List Char :=
  match pat with
  | [] => rep ++ s.flatMap fun c => c :: rep
  | _ :: _ => subFuel pat rep s.length s

/-- Number of (non-overlapping, leftmost) matches `re.sub` replaces in `s`.
For the empty pattern there is a zero-width match at every one of the
`s.length + 1` positions. -/
def countOcc (pat s : List Char) : Nat :=
  match pat with
  | [] => s.length + 1
  | _ :: _ => countFuel pat s.length s

/-- String-level wrapper for `reSub`. -/
def reSubS (pat rep s : String) : String :=
  ⟨reSub pat.data rep.data s.data⟩

/-- String-level wrapper for `countOcc`. -/
def countOccS (pat s : String) : Nat :=
  countOcc pat.data s.data

/-- Literal matched by the source's regex `old_currency_init` (Change 1). -/
def old_currency_init : String :=
  "  const [referenceCurrency, setReferenceCurrency] = useState(getDefaultCurrency()); // Set based on user role and preferences"

/-- The source's replacement `new_currency_init` (Change 1). -/
def new_currency_init : String :=
  "  const [referenceCurrency, setReferenceCurrency] = useState(() => \x7b\n    // Load saved currency from localStorage, fallback to default\n    const saved = localStorage.getItem(\x27dashboardCurrency\x27);\n    return saved || getDefaultCurrency();\n  \x7d); // Set based on user role and preferences"

/-- Literal matched by the source's regex `old_currency_effect` (Change 2). -/
def old_currency_effect : String :=
  "  // Update currency when user changes\n  useEffect(() => \x7b\n    if (user) \x7b\n      const defaultCurrency = getDefaultCurrency();\n      setReferenceCurrency(defaultCurrency);\n    \x7d\n  \x7d, [user]);"

/-- The source's replacement `new_currency_effect` (Change 2). -/
def new_currency_effect : String :=
  "  // Update currency when user changes\n  useEffect(() => \x7b\n    if (user) \x7b\n      const defaultCurrency = getDefaultCurrency();\n      const savedCurrency = localStorage.getItem(\x27dashboardCurrency\x27);\n      // Only reset to default if no saved preference exists\n      if (!savedCurrency) \x7b\n        setReferenceCurrency(defaultCurrency);\n      \x7d\n    \x7d\n  \x7d, [user]);\n\n  // Save currency preference to localStorage when it changes\n  useEffect(() => \x7b\n    if (referenceCurrency) \x7b\n      localStorage.setItem(\x27dashboardCurrency\x27, referenceCurrency);\n    \x7d\n  \x7d, [referenceCurrency]);"

/-- Literal matched by the source's regex `toggle_insert_point` (Change 3);
in the source the whole literal is wrapped in one capture group. -/
def toggle_insert_point : String :=
  "            </select>\n          </div>\n        </div>\n      </div>\n\n      \x7b/* Statistics Cards */\x7d"

/-- The source's replacement `toggle_component` (Change 3) without its leading
backreference `\1`; the full rendered replacement is
`toggle_insert_point ++ toggle_component_tail`, since group 1 always captures
exactly the literal `toggle_insert_point`. -/
def toggle_component_tail : String :=
  "\n\n          \x7b/* Relationship Manager Toggle - Show All Products */\x7d\n          \x7bisRelationshipManager && (\n            <div style=\x7b\x7b\n              display: \x27flex\x27,\n              alignItems: \x27center\x27,\n              gap: \x2712px\x27,\n              padding: isMobile ? \x270 4px\x27 : \x270\x27,\n              marginLeft: isMobile ? \x270\x27 : \x2720px\x27\n            \x7d\x7d>\n              <label style=\x7b\x7b\n                display: \x27flex\x27,\n                alignItems: \x27center\x27,\n                gap: \x278px\x27,\n                cursor: \x27pointer\x27,\n                userSelect: \x27none\x27\n              \x7d\x7d>\n                <input\n                  type=\"checkbox\"\n                  checked=\x7bshowAllProducts\x7d\n                  onChange=\x7b(e) => setShowAllProducts(e.target.checked)\x7d\n                  style=\x7b\x7b\n                    width: \x2718px\x27,\n                    height: \x2718px\x27,\n                    cursor: \x27pointer\x27,\n                    accentColor: \x27var(--accent-color)\x27\n                  \x7d\x7d\n                />\n                <span style=\x7b\x7b\n                  color: \x27var(--text-primary)\x27,\n                  fontSize: isMobile ? \x271rem\x27 : \x270.95rem\x27,\n                  fontWeight: \x27500\x27\n                \x7d\x7d>\n                  \x7bisMobile ? \x27All Products\x27 : \x27Show All Products\x27\x7d\n                </span>\n              </label>\n            </div>\n          )\x7d\n        </div>\n      </div>\n\n      \x7b/* Statistics Cards */\x7d"

/-- Rendered replacement of Change 3 (backreference `\1` expanded to the
matched literal). -/
def toggle_component_rendered : String :=
  toggle_insert_point ++ toggle_component_tail

/-- Literal matched by the source's regex `stats_start` (Change 4). -/
def stats_start : String :=
  "      \x7b/* Statistics Cards */\x7d\n      <div style=\x7b\x7b"

/-- The source's replacement `stats_start_replacement` (Change 4), with the
template escapes `\n` rendered as newlines. -/
def stats_start_replacement : String :=
  "      \x7b/* Statistics Cards */\x7d\n      \x7b!(isRelationshipManager && showAllProducts) && (\n      <div style=\x7b\x7b"

/-- The four (pattern, replacement) pairs applied by the script, in source
order (Changes 1-4). -/
def progPairs : List (String × String) :=
  [(old_currency_init, new_currency_init),
   (old_currency_effect, new_currency_effect),
   (toggle_insert_point, toggle_component_rendered),
   (stats_start, stats_start_replacement)]

/-- The script's in-memory pipeline: `content` after the four sequential
`re.sub` reassignments, each acting on the previous one's output. -/
def runProgram (t : String) : String :=
  reSubS stats_start stats_start_replacement
    (reSubS toggle_insert_point toggle_component_rendered
      (reSubS old_currency_effect new_currency_effect
        (reSubS old_currency_init new_currency_init t)))

/-- The Rule Applier contract of spec section 4.2, instantiated with the
code's substitution primitive: rules are applied in order, each against the
buffer as left by the previous rule, and each rule's outcome
(matched, occurrences replaced) is recorded in order.  The buffer component
refines the source pipeline `runProgram` (see `applyRuleSet_progPairs`);
the per-rule outcome list is the spec's `ApplyResult` bookkeeping, with
`matched` true exactly when at least one occurrence was found. -/
def applyRuleSet : List (String × String) → String → String × List (Bool × Nat)
  | [], t => (t, [])
  | (p, rep) :: rs, t =>
    let n := countOccS p t
    let next := applyRuleSet rs (reSubS p rep t)
    (next.1, (decide (0 < n), n) :: next.2)

/-- A rule together with the construction-time data `re` checks when the
rule's `re.sub` call runs: the number of capture groups in the pattern and
the group numbers referenced by the replacement template (`re` raises
"invalid group reference" when a referenced group exceeds the group count).
`repl` holds the rendered replacement text. -/
structure CRule where
  pat : String
  groups : Nat
  repl : String
  replRefs : List Nat

/-- A rule constructs without error iff every group reference in its
template names an existing capture group. -/
def crOk (r : CRule) : Bool :=
  r.replRefs.all fun n => decide (1 ≤ n ∧ n ≤ r.groups)

/-- The script's control flow with construction errors made explicit: each
`re.sub` call first validates its own pattern/template (at its own position
in the sequence, because each pattern is compiled at its call site), then
substitutes.  Returns the in-memory buffer at the point the run stopped and
whether a construction error aborted the run. -/
def applyChecked : List CRule → String → String × Bool
  | [], t => (t, false)
  | r :: rs, t =>
    if crOk r then applyChecked rs (reSubS r.pat r.repl t)
    else (t, true)

/-- The script's four rules with their construction-time data: only Change 3
has a capture group (one, wrapping the whole literal) and a template
backreference (`\1`). -/
def progRules : List CRule :=
  [⟨old_currency_init, 0, new_currency_init, []⟩,
   ⟨old_currency_effect, 0, new_currency_effect, []⟩,
   ⟨toggle_insert_point, 1, toggle_component_rendered, [1]⟩,
   ⟨stats_start, 0, stats_start_replacement, []⟩]

/-- Writes the script performs to the patched file: the single
`open(..., 'w')`/`f.write(content)` at the end, executed only if no rule
raised; an exception propagating out of any `re.sub` call prevents the
write entirely. -/
def programWrites (rs : List CRule) (t : String) : List String :=
  let p := applyChecked rs t
  if p.2 then [] else [p.1]

/-- Content of the patched file after the script runs, starting from content
`t`: the final buffer if the run completed, the original content if an
exception aborted the run before the single end-of-run write. -/
def finalFile (rs : List CRule) (t : String) : String :=
  let p := applyChecked rs t
  if p.2 then t else p.1

/-- The lines the script prints after writing the file, verbatim: a success
banner, the list of changes it believes it made, and the manual follow-up
instruction for the unfinished Change 4 closing delimiter. -/
def reportLines : List String :=
  ["Dashboard updates applied successfully!",
   "Changes made:",
   "1. Currency persistence with localStorage",
   "2. Added RM toggle component",
   "3. Added conditional wrapper for stats cards (opening)",
   "",
   "\u26A0\uFE0F  MANUAL STEP REQUIRED:",
   "   Find the closing </div> for the stats cards section",
   "   (around line 975-980, after all LiquidGlassCard components)",
   "   Add \x27)\x7d\x27 after the closing </div>"]

/-- The script's console report as a function of the input content: the
print statements are unconditional, so the report is the same fixed list of
lines whatever the buffer contains and whatever matched. -/
def programOutput (_ : String) : List String :=
  reportLines

/-- Two strings with the same character data are equal. -/
theorem string_eq_of_data {s t : String} (h : s.data = t.data) : s = t := by
  cases s
  cases t
  cases h
  rfl

/-- The scanner is insensitive to the exact amount of fuel as long as the
fuel covers the length of the text. -/
theorem subFuel_fuel_eq (pat rep : List Char) :
    ∀ f₁ f₂ s, s.length ≤ f₁ → s.length ≤ f₂ →
      subFuel pat rep f₁ s = subFuel pat rep f₂ s := by
  intro f₁
  induction f₁ with
  | zero =>
    intro f₂ s h1 _
    have hs : s = [] := List.length_eq_zero.mp (Nat.le_zero.mp h1)
    subst hs
    cases f₂ <;> simp [subFuel]
  | succ f ih =>
    intro f₂ s h1 h2
    cases s with
    | nil => cases f₂ <;> simp [subFuel]
    | cons c rest =>
      obtain ⟨g, rfl⟩ : ∃ g, f₂ = g + 1 :=
        ⟨f₂ - 1, by simp at h2; omega⟩
      simp only [List.length_cons] at h1 h2
      cases hp : pat.isPrefixOf (c :: rest) with
      | true =>
        simp only [subFuel, hp, if_true]
        congr 1
        have hd := List.length_drop (pat.length - 1) rest
        exact ih g (rest.drop (pat.length - 1)) (by omega) (by omega)
      | false =>
        simp only [subFuel, hp, Bool.false_eq_true, if_false]
        congr 1
        exact ih g rest (by omega) (by omega)

/-- If the counter finds no occurrence, the scanner leaves the text
unchanged. -/
theorem subFuel_no_occ (pat rep : List Char) :
    ∀ f s, countFuel pat f s = 0 → subFuel pat rep f s = s := by
  intro f
  induction f with
  | zero => intro s _; simp [subFuel]
  | succ f ih =>
    intro s h
    cases s with
    | nil => simp [subFuel]
    | cons c rest =>
      cases hp : pat.isPrefixOf (c :: rest) with
      | true => simp [countFuel, hp] at h
      | false =>
        simp only [subFuel, hp, Bool.false_eq_true, if_false]
        simp only [countFuel, hp, Bool.false_eq_true, if_false] at h
        rw [ih rest h]

/-- A pattern with no occurrence in the text is replaced nowhere: `re.sub`
returns the text unchanged. -/
theorem reSub_no_occ (pat rep s : List Char) (h : countOcc pat s = 0) :
    reSub pat rep s = s := by
  cases pat with
  | nil => simp [countOcc] at h
  | cons p pt =>
    simp only [countOcc] at h
    simp only [reSub]
    exact subFuel_no_occ (p :: pt) rep s.length s h

/-- String-level version of `reSub_no_occ`. -/
theorem reSubS_no_occ (pat rep s : String) (h : countOccS pat s = 0) :
    reSubS pat rep s = s := by
  apply string_eq_of_data
  exact reSub_no_occ pat.data rep.data s.data h

/-- Substituting a non-empty pattern in a text that starts with the pattern
replaces that leading occurrence and continues on the remainder. -/
theorem reSub_append_self (pat rep t : List Char) (hne : pat ≠ []) :
    reSub pat rep (pat ++ t) = rep ++ reSub pat rep t := by
  cases pat with
  | nil => exact absurd rfl hne
  | cons p pt =>
    simp only [reSub, List.cons_append, List.length_cons]
    have hlen : (pt ++ t).length + 1 = (pt ++ t).length + 1 := rfl
    have hpre : (p :: pt).isPrefixOf (p :: (pt ++ t)) = true := by
      rw [List.isPrefixOf_iff_prefix]
      have : p :: (pt ++ t) = (p :: pt) ++ t := by simp
      rw [this]
      exact List.prefix_append (p :: pt) t
    simp only [subFuel, hpre, if_true]
    congr 1
    have hdrop : (pt ++ t).drop ((p :: pt).length - 1) = t := by
      simp only [List.length_cons, Nat.add_sub_cancel]
      exact List.drop_left pt t
    rw [hdrop]
    apply subFuel_fuel_eq
    · simp
    · exact Nat.le_refl _

/-- String-level version of `reSub_append_self`. -/
theorem reSubS_append_self (pat rep t : String) (hne : pat.data ≠ []) :
    reSubS pat rep (pat ++ t) = rep ++ reSubS pat rep t := by
  apply string_eq_of_data
  show reSub pat.data rep.data (pat ++ t).data = (rep ++ reSubS pat rep t).data
  rw [String.data_append, String.data_append]
  exact reSub_append_self pat.data rep.data t.data hne

/-- Substituting a non-empty pattern in the pattern itself yields exactly the
replacement. -/
theorem reSubS_self (pat rep : String) (hne : pat.data ≠ []) :
    reSubS pat rep pat = rep := by
  have h := reSubS_append_self pat rep "" hne
  have hnil : pat ++ "" = pat := by
    apply string_eq_of_data
    rw [String.data_append]
    simp
  rw [hnil] at h
  rw [h]
  have hdat : reSubS pat rep "" = "" := by
    apply string_eq_of_data
    cases pat with
    | mk d =>
      cases d with
      | nil => exact absurd rfl hne
      | cons p pt => simp [reSubS, reSub, subFuel]
  rw [hdat]
  apply string_eq_of_data
  rw [String.data_append]
  simp

/-- Appending a non-empty string changes a string. -/
theorem append_ne_left (s t : String) (h : t.data ≠ []) : s ++ t ≠ s := by
  intro he
  have hd : (s ++ t).data = s.data := congrArg String.data he
  rw [String.data_append] at hd
  have hl := congrArg List.length hd
  simp only [List.length_append] at hl
  exact h (List.length_eq_zero.mp (by omega))

/-- The anchor of Change 3 is non-empty. -/
theorem toggle_insert_point_ne_nil : toggle_insert_point.data ≠ [] := by
  decide

/-- The inserted block of Change 3 is non-empty. -/
theorem toggle_component_tail_ne_nil : toggle_component_tail.data ≠ [] := by
  decide

/-- The anchor of Change 3 does not occur in the inserted block that follows
its re-emitted copy. -/
theorem countOcc_tip_in_tail :
    countOccS toggle_insert_point toggle_component_tail = 0 := by
  decide

/-- Applying Change 3 to a buffer that is exactly its own anchor yields the
rendered replacement. -/
theorem change3_once :
    reSubS toggle_insert_point toggle_component_rendered toggle_insert_point
      = toggle_component_rendered :=
  reSubS_self toggle_insert_point toggle_component_rendered
    toggle_insert_point_ne_nil

/-- Applying Change 3 to its own output inserts the block a second time:
the replacement re-emits the anchor, so the anchor still matches. -/
theorem change3_twice :
    reSubS toggle_insert_point toggle_component_rendered toggle_component_rendered
      = toggle_component_rendered ++ toggle_component_tail := by
  have h := reSubS_append_self toggle_insert_point toggle_component_rendered
    toggle_component_tail toggle_insert_point_ne_nil
  rw [reSubS_no_occ toggle_insert_point toggle_component_rendered
    toggle_component_tail countOcc_tip_in_tail] at h
  exact h

/-- Appending a rule at the end of a rule set runs it on the buffer produced
by all earlier rules, and appends its outcome to their outcomes. -/
theorem applyRuleSet_append (p rep : String) :
    ∀ (rs : List (String × String)) (t : String),
      applyRuleSet (rs ++ [(p, rep)]) t =
        (reSubS p rep (applyRuleSet rs t).1,
         (applyRuleSet rs t).2 ++
           [(decide (0 < countOccS p (applyRuleSet rs t).1),
             countOccS p (applyRuleSet rs t).1)]) := by
  intro rs
  induction rs with
  | nil => intro t; simp [applyRuleSet]
  | cons q qs ih =>
    intro t
    obtain ⟨q1, q2⟩ := q
    simp [applyRuleSet, ih]

/-- Every rule of a rule set contributes exactly one outcome to the run's
result list, whether or not it matched. -/
theorem applyRuleSet_length :
    ∀ (rs : List (String × String)) (t : String),
      (applyRuleSet rs t).2.length = rs.length := by
  intro rs
  induction rs with
  | nil => intro t; simp [applyRuleSet]
  | cons q qs ih =>
    intro t
    obtain ⟨q1, q2⟩ := q
    simp [applyRuleSet, ih]

/-- A rule whose anchor is absent records a failed outcome with zero
replacements, leaves the buffer unchanged, and the remaining rules run on
that same buffer. -/
theorem applyRuleSet_no_match (p rep : String) (rs : List (String × String))
    (t : String) (h : countOccS p t = 0) :
    applyRuleSet ((p, rep) :: rs) t =
      ((applyRuleSet rs t).1, (false, 0) :: (applyRuleSet rs t).2) := by
  simp [applyRuleSet, h, reSubS_no_occ p rep t h]

/-- The spec-side Rule Applier, run on the script's four rules, computes
exactly the script's `content` pipeline. -/
theorem applyRuleSet_progPairs (t : String) :
    (applyRuleSet progPairs t).1 = runProgram t := rfl

/-- A rule that fails construction aborts immediately with the buffer as it
stood when it was reached. -/
theorem applyChecked_bad (r : CRule) (rs : List CRule) (t : String)
    (h : crOk r = false) : applyChecked (r :: rs) t = (t, true) := by
  simp [applyChecked, h]

/-- A rule that constructs cleanly substitutes and passes the new buffer to
the remaining rules. -/
theorem applyChecked_ok (r : CRule) (rs : List CRule) (t : String)
    (h : crOk r = true) :
    applyChecked (r :: rs) t = applyChecked rs (reSubS r.pat r.repl t) := by
  simp [applyChecked, h]

/-- The script's four rules all construct cleanly, so the checked run never
aborts and computes the `content` pipeline. -/
theorem applyChecked_progRules (t : String) :
    applyChecked progRules t = (runProgram t, false) := rfl

/-- On the script's rules the single end-of-run write stores exactly the
final buffer. -/
theorem programWrites_progRules (t : String) :
    programWrites progRules t = [runProgram t] := by
  simp [programWrites, applyChecked_progRules]

/-- C1 counterexample: on a buffer holding two non-overlapping occurrences
of the scenario anchor, the code's substitution does not leave the buffer
unchanged (there is no `AmbiguousMatch` signal; `re.sub` rewrites the
buffer), refuting the claim that two occurrences yield `AmbiguousMatch`
with an unchanged buffer. -/
theorem c1_counterexample :
    countOccS "const x = 1;" "const x = 1;\nconst x = 1;\n" = 2 ∧
    reSubS "const x = 1;" "const x = 2;" "const x = 1;\nconst x = 1;\n"
      ≠ "const x = 1;\nconst x = 1;\n" := by
  constructor
  · decide
  · decide

/-- C1 (amended): the code's substitution replaces every non-overlapping
occurrence of the anchor: with zero occurrences the buffer is unchanged
(and nothing is signalled); with exactly one occurrence that single
occurrence is replaced; with two or more occurrences all of them are
replaced — no `AmbiguousMatch` is signalled and the buffer does not stay
unchanged. -/
theorem c1_replaces_all_occurrences :
    (∀ pat rep s : String, countOccS pat s = 0 → reSubS pat rep s = s) ∧
    (countOccS "const x = 1;" "const x = 1;\n" = 1 ∧
     reSubS "const x = 1;" "const x = 2;" "const x = 1;\n"
       = "const x = 2;\n") ∧
    (countOccS "const x = 1;" "const x = 1;\nconst x = 1;\n" = 2 ∧
     reSubS "const x = 1;" "const x = 2;" "const x = 1;\nconst x = 1;\n"
       = "const x = 2;\nconst x = 2;\n") := by
  refine ⟨reSubS_no_occ, ⟨by decide, by decide⟩, by decide, by decide⟩

/-- C1 witness: the zero-occurrence branch of `c1_replaces_all_occurrences`
applied to a concrete buffer without the anchor. -/
theorem c1_witness : reSubS "const x = 1;" "const x = 2;" "other text" = "other text" :=
  c1_replaces_all_occurrences.1 "const x = 1;" "const x = 2;" "other text"
    (by decide)

/-- C2: sequential feed-forward. A rule appended to a rule set is matched
against the buffer as mutated by all earlier rules; the spec-side applier on
the script's four rules computes exactly the script's sequentially
reassigned `content`; and in a concrete two-rule set whose second anchor
exists only in the first rule's output, the second rule still succeeds. -/
theorem c2_sequential_feed_forward :
    (∀ (rs : List (String × String)) (p rep t : String),
        applyRuleSet (rs ++ [(p, rep)]) t =
          (reSubS p rep (applyRuleSet rs t).1,
           (applyRuleSet rs t).2 ++
             [(decide (0 < countOccS p (applyRuleSet rs t).1),
               countOccS p (applyRuleSet rs t).1)])) ∧
    (∀ t : String, (applyRuleSet progPairs t).1 = runProgram t) ∧
    (countOccS "MARK" "alpha" = 0 ∧
     applyRuleSet [("alpha", "MARK"), ("MARK", "beta")] "alpha"
       = ("beta", [(true, 1), (true, 1)])) := by
  refine ⟨fun rs p rep t => applyRuleSet_append p rep rs t,
    applyRuleSet_progPairs, by decide, by decide⟩

/-- C3: a missing anchor is non-fatal. A rule whose anchor is absent from
the current buffer records the outcome (matched := false, replaced := 0),
leaves the buffer byte-for-byte unchanged, and all remaining rules still
run (every rule of any rule set contributes exactly one recorded outcome);
concretely, a two-rule set whose first anchor is absent still applies its
second rule and reports both outcomes. -/
theorem c3_missing_anchor_non_fatal :
    (∀ (p rep : String) (rs : List (String × String)) (t : String),
        countOccS p t = 0 →
          applyRuleSet ((p, rep) :: rs) t =
            ((applyRuleSet rs t).1, (false, 0) :: (applyRuleSet rs t).2)) ∧
    (∀ (rs : List (String × String)) (t : String),
        (applyRuleSet rs t).2.length = rs.length) ∧
    applyRuleSet [("zz", "yy"), ("b", "c")] "abc"
      = ("acc", [(false, 0), (true, 1)]) := by
  refine ⟨applyRuleSet_no_match, applyRuleSet_length, by decide⟩

/-- C3 witness: `c3_missing_anchor_non_fatal` applied to a concrete one-rule
set whose anchor is absent. -/
theorem c3_witness :
    applyRuleSet [("zz", "yy")] "abc" = (("abc" : String), [(false, 0)]) := by
  have h := c3_missing_anchor_non_fatal.1 "zz" "yy" [] "abc" (by decide)
  simpa [applyRuleSet] using h

/-- C4 counterexample: a zero-length (empty-pattern) match does cause
substitution — `re.sub` inserts the replacement at every position — so it is
not rejected and no `DegenerateMatch` signal exists. -/
theorem c4_counterexample :
    reSubS "" "X" "ab" = "XaXbX" ∧ ("XaXbX" : String) ≠ "ab" := by
  constructor
  · decide
  · decide

/-- C4 (amended): none of the script's four anchor patterns is empty, and
each is a fixed literal, so every match in this program has the anchor's
positive length and no zero-length match ever arises; the substitution
primitive itself, however, substitutes at zero-length matches (inserting the
replacement at each of the `length + 1` positions) rather than signalling
`DegenerateMatch`. -/
theorem c4_no_zero_length_anchor :
    (old_currency_init.data ≠ [] ∧ old_currency_effect.data ≠ [] ∧
     toggle_insert_point.data ≠ [] ∧ stats_start.data ≠ []) ∧
    (∀ s : String, countOccS "" s = s.data.length + 1) ∧
    (∀ rep s : String,
        reSubS "" rep s = ⟨rep.data ++ s.data.flatMap fun c => c :: rep.data⟩) := by
  refine ⟨⟨by decide, by decide, by decide, by decide⟩, fun s => rfl, fun rep s => rfl⟩

/-- C5: spec example scenario 1. The one-rule set replacing
"const x = 1;" with "const x = 2;" applied to "const x = 1;\n" produces
final buffer "const x = 2;\n" and exactly one recorded outcome, matched
with one occurrence replaced. -/
theorem c5_scenario_one :
    applyRuleSet [("const x = 1;", "const x = 2;")] "const x = 1;\n"
      = ("const x = 2;\n", [(true, 1)]) := by
  decide

/-- C6 counterexample: on the empty input no anchor matches, yet the
script's report still announces success and lists Change 1 as made — the
report does not reflect per-rule outcomes. -/
theorem c6_counterexample :
    countOccS old_currency_init "" = 0 ∧
    "Dashboard updates applied successfully!" ∈ programOutput "" ∧
    "1. Currency persistence with localStorage" ∈ programOutput "" := by
  refine ⟨by decide, by decide, by decide⟩

/-- C6 (amended): the script's user-visible report is one fixed list of
lines, independent of the input and of which rules matched; it does
explicitly call out the manual follow-up (the Change 4 closing delimiter),
but it unconditionally claims success and enumerates the changes as made,
so it can report success for rules that did not match. -/
theorem c6_report_is_fixed :
    (∀ t : String, programOutput t = reportLines) ∧
    "\u26A0\uFE0F  MANUAL STEP REQUIRED:" ∈ reportLines ∧
    "   Add \x27)\x7d\x27 after the closing </div>" ∈ reportLines := by
  refine ⟨fun t => rfl, by decide, by decide⟩

/-- C7 counterexample: with a well-formed first rule and a malformed second
rule (its template references group 2 but its pattern has no groups), the
run aborts at the second rule, yet the first rule's substitution has
already been applied to the in-memory buffer — construction errors are not
raised before every rule executes. -/
theorem c7_counterexample :
    crOk ⟨"c", 0, "x", [2]⟩ = false ∧
    applyChecked [⟨"a", 0, "b", []⟩, ⟨"c", 0, "x", [2]⟩] "a" = ("b", true) ∧
    ("b" : String) ≠ "a" := by
  refine ⟨by decide, by decide, by decide⟩

/-- C7 (amended): each rule's pattern/template is validated at that rule's
own `re.sub` call, not up front: a malformed rule aborts the run exactly
when it is reached, with all earlier rules' substitutions already applied
to the in-memory buffer; a well-formed rule substitutes and hands the new
buffer on; the script's own four rules are all well-formed, so its run
raises no construction error. -/
theorem c7_construction_checked_per_call :
    (∀ (r : CRule) (rs : List CRule) (t : String),
        crOk r = false → applyChecked (r :: rs) t = (t, true)) ∧
    (∀ (r : CRule) (rs : List CRule) (t : String),
        crOk r = true →
          applyChecked (r :: rs) t = applyChecked rs (reSubS r.pat r.repl t)) ∧
    progRules.all crOk = true := by
  refine ⟨applyChecked_bad, applyChecked_ok, by decide⟩

/-- C7 witness: the abort branch of `c7_construction_checked_per_call`
applied to a concrete malformed rule. -/
theorem c7_witness :
    applyChecked [⟨"c", 0, "x", [2]⟩] "q" = (("q" : String), true) :=
  c7_construction_checked_per_call.1 ⟨"c", 0, "x", [2]⟩ [] "q" (by decide)

/-- C8: the engine performs at most one write to persistent storage, and
only after every rule has run: an aborted run writes nothing and leaves the
stored file unchanged, a completed run performs exactly the single write of
the final buffer, and on the script's own (never-aborting) rules the one
write stores exactly the pipeline's final buffer. -/
theorem c8_single_write_at_end :
    (∀ (rs : List CRule) (t : String), (programWrites rs t).length ≤ 1) ∧
    (∀ (rs : List CRule) (t : String),
        (applyChecked rs t).2 = true →
          programWrites rs t = [] ∧ finalFile rs t = t) ∧
    (∀ (rs : List CRule) (t : String),
        (applyChecked rs t).2 = false →
          programWrites rs t = [(applyChecked rs t).1]) ∧
    (∀ t : String, programWrites progRules t = [runProgram t]) := by
  refine ⟨?_, ?_, ?_, programWrites_progRules⟩
  · intro rs t
    simp only [programWrites]
    cases h : (applyChecked rs t).2 <;> simp [h]
  · intro rs t h
    simp [programWrites, finalFile, h]
  · intro rs t h
    simp [programWrites, h]

/-- C8 witness: `c8_single_write_at_end` applied to a concrete aborting run
(one malformed rule): no write happens and the stored file keeps its old
content. -/
theorem c8_witness :
    programWrites [⟨"c", 0, "x", [2]⟩] "ab" = [] ∧
      finalFile [⟨"c", 0, "x", [2]⟩] "ab" = "ab" :=
  c8_single_write_at_end.2.1 [⟨"c", 0, "x", [2]⟩] "ab" (by decide)

/-- C9: idempotence classification of the script's four rules. A second
application of any rule whose anchor no longer occurs in the post-patch
buffer leaves that buffer unchanged; the anchors of Changes 1, 2 and 4 do
not occur in their own replacements, while Change 3's rendered replacement
re-emits its anchor (via the backreference), still contains it once, and is
therefore non-idempotent: applying Change 3 twice to a buffer differs from
applying it once. -/
theorem c9_idempotence_classification :
    (∀ pat rep u : String, countOccS pat u = 0 → reSubS pat rep u = u) ∧
    countOccS old_currency_init new_currency_init = 0 ∧
    countOccS old_currency_effect new_currency_effect = 0 ∧
    countOccS stats_start stats_start_replacement = 0 ∧
    countOccS toggle_insert_point toggle_component_rendered = 1 ∧
    reSubS toggle_insert_point toggle_component_rendered
        (reSubS toggle_insert_point toggle_component_rendered toggle_insert_point)
      ≠ reSubS toggle_insert_point toggle_component_rendered toggle_insert_point := by
  refine ⟨reSubS_no_occ, by decide, by decide, by decide, by decide, ?_⟩
  rw [change3_once, change3_twice]
  exact append_ne_left toggle_component_rendered toggle_component_tail
    toggle_component_tail_ne_nil

/-- C9 witness: the conditional idempotence branch of
`c9_idempotence_classification` at a concrete post-patch buffer without the
anchor. -/
theorem c9_witness : reSubS "qq" "rr" "mnp" = "mnp" :=
  c9_idempotence_classification.1 "qq" "rr" "mnp" (by decide)

/-- C10: on an input containing none of the four anchors the pipeline is the
identity, yet the script still performs its single end-of-run write — whose
content is byte-for-byte the input — and still prints the full fixed
success report. -/
theorem c10_identity_still_writes (t : String)
    (h1 : countOccS old_currency_init t = 0)
    (h2 : countOccS old_currency_effect t = 0)
    (h3 : countOccS toggle_insert_point t = 0)
    (h4 : countOccS stats_start t = 0) :
    runProgram t = t ∧ programWrites progRules t = [t] ∧
      programOutput t = reportLines := by
  have hrun : runProgram t = t := by
    unfold runProgram
    rw [reSubS_no_occ _ _ _ h1, reSubS_no_occ _ _ _ h2,
      reSubS_no_occ _ _ _ h3, reSubS_no_occ _ _ _ h4]
  refine ⟨hrun, ?_, rfl⟩
  rw [programWrites_progRules, hrun]

/-- C10 witness: `c10_identity_still_writes` at the concrete anchor-free
input "hello world": the write happens and stores the input verbatim. -/
theorem c10_witness :
    runProgram "hello world" = "hello world" ∧
      programWrites progRules "hello world" = ["hello world"] ∧
      programOutput "hello world" = reportLines :=
  c10_identity_still_writes "hello world" (by decide) (by decide) (by decide)
    (by decide)

end DashboardUpdates
